import Mathlib

/-!
Verification of the multi-engine database layer of `yuerenge_database_mcp`.

The Python source is shallowly embedded: dictionaries become association
lists (`Dict`), driver values become the inductive `Value`, fallible calls
become `Except`/`Option`, and the stateful operations of the managers
become explicit state-passing functions.  Every definition follows the
corresponding function in
`src/yuerenge_database_mcp/db_tools/...` as closely as Lean allows.
-/

namespace DBMCP

/-- The single-quote character, kept out of string literals. -/
def sq : String := Char.toString (Char.ofNat 39)

/-- A driver-level Python value as it appears in data / condition
dictionaries and result rows.  `vDatetime` and `vDate` model
`datetime.datetime` and `datetime.date` objects (the objects exposing
`strftime`); the remaining constructors are plain scalars. -/
inductive Value where
  | vNone
  | vBool (b : Bool)
  | vInt (n : Int)
  | vStr (s : String)
  | vDatetime (y mo d h mi s : Nat)
  | vDate (y mo d : Nat)
deriving DecidableEq

/-- A Python dictionary with string keys, as an insertion-ordered
association list (Python dicts preserve insertion order). -/
abbrev Dict := List (String × Value)

/-- `hasattr(value, "strftime")`: true exactly for the temporal objects. -/
def hasStrftime : Value → Bool
  | Value.vDatetime _ _ _ _ _ _ => true
  | Value.vDate _ _ _ => true
  | _ => false

/-- Zero-padded two-digit decimal rendering used by `strftime` fields. -/
def pad2 (n : Nat) : String :=
  String.mk [Nat.digitChar (n / 10 % 10), Nat.digitChar (n % 10)]

/-- Zero-padded four-digit decimal rendering used by `strftime`'s `%Y`. -/
def pad4 (n : Nat) : String :=
  String.mk [Nat.digitChar (n / 1000 % 10), Nat.digitChar (n / 100 % 10),
             Nat.digitChar (n / 10 % 10), Nat.digitChar (n % 10)]

/-- `value.strftime("%Y-%m-%d %H:%M:%S")` on a temporal object; a
`datetime.date` renders its missing time fields as `00:00:00`. -/
def strftimeCanonical : Value → String
  | Value.vDatetime y mo d h mi s =>
      pad4 y ++ "-" ++ pad2 mo ++ "-" ++ pad2 d ++ " " ++
      pad2 h ++ ":" ++ pad2 mi ++ ":" ++ pad2 s
  | Value.vDate y mo d =>
      pad4 y ++ "-" ++ pad2 mo ++ "-" ++ pad2 d ++ " 00:00:00"
  | _ => ""

/-- Python `str(value)` for the values this layer manipulates. -/
def pyStr : Value → String
  | Value.vNone => "None"
  | Value.vBool b => if b then "True" else "False"
  | Value.vInt n => toString n
  | Value.vStr s => s
  | v => strftimeCanonical v

/-- `is_datetime_string` from `db_tools/utils/oracle_utils.py`: the regex
`^\d4-\d2-\d2( \d2:\d2:\d2)?$` (braced repetition counts spelled out),
i.e. `YYYY-MM-DD` optionally followed by ` HH:MM:SS`. -/
def is_datetime_string (s : String) : Bool :=
  match s.toList with
  | [a, b, c, d, '-', e, f, '-', g, h] =>
      a.isDigit && b.isDigit && c.isDigit && d.isDigit &&
      e.isDigit && f.isDigit && g.isDigit && h.isDigit
  | [a, b, c, d, '-', e, f, '-', g, h, ' ', i, j, ':', k, l, ':', m, n] =>
      a.isDigit && b.isDigit && c.isDigit && d.isDigit &&
      e.isDigit && f.isDigit && g.isDigit && h.isDigit &&
      i.isDigit && j.isDigit && k.isDigit && l.isDigit &&
      m.isDigit && n.isDigit
  | _ => false

/-- Whether a string contains a space character (`" " in value` /
`value.contains(" ")` distinguishing date-only from datetime strings). -/
def containsSpace (s : String) : Bool := s.toList.contains ' '

/-- Python `str.upper()` (ASCII-relevant part, as used on table names):
uppercase every character. -/
def pyUpper (s : String) : String := String.mk (s.data.map Char.toUpper)

/-- Python `str.lower()` as used on table names by the PostgreSQL adapter. -/
def pyLower (s : String) : String := String.mk (s.data.map Char.toLower)

/-! ### Dictionary primitives (Python `dict` semantics) -/

/-- `d[k] = v` on an insertion-ordered dict: replace the value in place if
the key exists, otherwise append the pair. -/
def dictSet (d : Dict) (k : String) (v : Value) : Dict :=
  if d.any (fun p => p.1 == k) then
    d.map (fun p => if p.1 == k then (p.1, v) else p)
  else
    d ++ [(k, v)]

/-- `base.update(adds)`: fold `dictSet` over the added pairs. -/
def dictUpdate (base : Dict) (adds : Dict) : Dict :=
  adds.foldl (fun d p => dictSet d p.1 p.2) base

/-- `d.get(k)` / `d.pop(k, None)`'s returned value. -/
def dictGet (d : Dict) (k : String) : Option Value :=
  List.lookup k d

/-- The dict left after `d.pop(k1); d.pop(k2)` for two keys. -/
def dictDropKeys (d : Dict) (k1 k2 : String) : Dict :=
  d.filter (fun p => p.1 ≠ k1 && p.1 ≠ k2)

/-! ### Dialect adapters (`db_tools/connections/database_adapters.py`)

Each `get_*` method is a pure string/param builder; the condition loop
shared by the adapters (`"col = :col"` joined by `" AND "`, values bound
as parameters) is factored into `condStrs`/`condParams` with the
engine-specific identifier quoting passed in. -/

/-- The `condition_strs` list: one `quoted-key = :key` fragment per pair. -/
def condStrs (quote : String → String) (conditions : Dict) : List String :=
  conditions.map (fun p => quote p.1 ++ " = :" ++ p.1)

/-- The params dict built alongside the condition fragments. -/
def condParams (conditions : Dict) : Dict := conditions

/-- `" WHERE ..."` when the conditions dict is non-empty, else nothing. -/
def whereClause (quote : String → String) (conditions : Dict) : String :=
  if conditions.isEmpty then ""
  else " WHERE " ++ String.intercalate " AND " (condStrs quote conditions)

/-- MySQL identifier quoting: backticks. -/
def mysqlQuote (k : String) : String := "`" ++ k ++ "`"

/-- Identity "quoting" used by the Oracle/PostgreSQL/SQLite condition loops. -/
def bareQuote (k : String) : String := k

/-- `MySQLAdapter.get_count_query`. -/
def mysqlGetCountQuery (table : String) (conditions : Dict) : String × Dict :=
  ("SELECT COUNT(*) FROM " ++ mysqlQuote table ++ whereClause mysqlQuote conditions,
   condParams conditions)

/-- `MySQLAdapter.get_paginated_select_query`: pops `limit`/`offset` out of
the conditions dict, renders the remainder as a WHERE clause, and appends
`LIMIT n` / `OFFSET m` with the popped values interpolated. -/
def mysqlGetPaginatedSelectQuery (table : String) (conditions : Dict) : String × Dict :=
  let lim := dictGet conditions "limit"
  let off := dictGet conditions "offset"
  let rest := dictDropKeys conditions "limit" "offset"
  let base := "SELECT * FROM " ++ mysqlQuote table ++ whereClause mysqlQuote rest
  let paged :=
    match lim with
    | none => base
    | some l =>
        match off with
        | none => base ++ " LIMIT " ++ pyStr l
        | some o => base ++ " LIMIT " ++ pyStr l ++ " OFFSET " ++ pyStr o
  (paged, condParams rest)

/-- `MySQLAdapter.get_drop_table_statement`. -/
def mysqlGetDropTableStatement (table : String) (cascade : Bool) : String :=
  "DROP TABLE " ++ mysqlQuote table ++ (if cascade then " CASCADE" else "")

/-- `PostgreSQLAdapter.get_drop_table_statement`. -/
def postgresqlGetDropTableStatement (table : String) (cascade : Bool) : String :=
  "DROP TABLE " ++ pyLower table ++ (if cascade then " CASCADE" else "")

/-- `OracleAdapter.get_drop_table_statement`. -/
def oracleGetDropTableStatement (table : String) (cascade : Bool) : String :=
  "DROP TABLE " ++ pyUpper table ++ (if cascade then " CASCADE CONSTRAINTS" else "")

/-- `SQLiteAdapter.get_drop_table_statement` (the cascade flag is ignored). -/
def sqliteGetDropTableStatement (table : String) (_cascade : Bool) : String :=
  "DROP TABLE " ++ table

/-- `SQLServerAdapter.get_drop_table_statement`: `cascade_check = "IF
EXISTS " if cascade else ""` prefixed to the table name. -/
def sqlserverGetDropTableStatement (table : String) (cascade : Bool) : String :=
  "DROP TABLE " ++ (if cascade then "IF EXISTS " else "") ++ table

/-- An alter-table operation dict.  `tag` is `operation["operation"]`;
`nullable` defaults to true like `operation.get("nullable", True)`;
`length`, `defaultVal` and `comment` are absent when the dict lacks the key. -/
structure AlterOperation where
  tag : String
  name : String := ""
  colType : String := ""
  length : Option Nat := none
  nullable : Bool := true
  defaultVal : Option Value := none
  comment : Option String := none
  oldName : String := ""
  newName : String := ""
deriving DecidableEq

/-- The ` DEFAULT ...` fragment: string defaults single-quoted, everything
else interpolated bare. -/
def defaultFragment : Option Value → String
  | none => ""
  | some (Value.vStr s) => " DEFAULT " ++ sq ++ s ++ sq
  | some v => " DEFAULT " ++ pyStr v

/-- The column definition built by `SQLiteAdapter.get_alter_table_statement`
for an `add_column` operation. -/
def sqliteAddColumnDef (op : AlterOperation) : String :=
  op.name ++ " " ++ op.colType ++
  (match op.length with
   | none => ""
   | some n => "(" ++ toString n ++ ")") ++
  (if op.nullable then "" else " NOT NULL") ++
  defaultFragment op.defaultVal

/-- `SQLiteAdapter.get_alter_table_statement`: builds `ALTER TABLE ... ADD
COLUMN` for `add_column`, raises `ValueError` for `drop_column`,
`modify_column`, `rename_column`, and raises `ValueError` for any other tag. -/
def sqliteGetAlterTableStatement (table : String) (op : AlterOperation) :
    Except String String :=
  if op.tag == "add_column" then
    Except.ok ("ALTER TABLE " ++ table ++ " ADD COLUMN " ++ sqliteAddColumnDef op)
  else if op.tag == "drop_column" || op.tag == "modify_column" || op.tag == "rename_column" then
    Except.error ("Operation " ++ sq ++ op.tag ++ sq ++
      " is not supported in SQLite. Consider using a workaround.")
  else
    Except.error ("Unsupported alter table operation: " ++ op.tag)

/-! ### Oracle insert path (`DataManager.insert_data`, Oracle branch)

`OracleAdapter.get_insert_query` returns the data unchanged as params with
plain `:key` placeholders; `insert_data` then rebuilds the query when any
parameter's `str()` looks like a datetime, wrapping matching *string*
values in `TO_DATE` — format `YYYY-MM-DD HH24:MI:SS` when the string has a
time component, `YYYY-MM-DD` when it is date-only. -/

/-- The placeholder `insert_data` emits for one `(key, value)` pair when
rebuilding the Oracle INSERT. -/
def oracleFormatPlaceholder (k : String) (v : Value) : String :=
  match v with
  | Value.vStr s =>
      if is_datetime_string s then
        if containsSpace s then
          "TO_DATE(:" ++ k ++ ", " ++ sq ++ "YYYY-MM-DD HH24:MI:SS" ++ sq ++ ")"
        else
          "TO_DATE(:" ++ k ++ ", " ++ sq ++ "YYYY-MM-DD" ++ sq ++ ")"
      else ":" ++ k
  | _ => ":" ++ k

/-- The `new_params` dict the rebuild produces: each value stored back
unchanged (`new_params[key] = value` in both branches). -/
def oracleRebuildParams (params : Dict) : Dict :=
  params.map (fun p => (p.1, p.2))

/-- `OracleAdapter.get_insert_query`: plain named placeholders. -/
def oracleGetInsertQuery (table : String) (data : Dict) : String × Dict :=
  ("INSERT INTO " ++ pyUpper table ++ " (" ++
     String.intercalate ", " (data.map Prod.fst) ++ ") VALUES (" ++
     String.intercalate ", " (data.map (fun p => ":" ++ p.1)) ++ ")",
   data)

/-- The Oracle branch of `DataManager.insert_data`: if any param's `str()`
matches the datetime regex the INSERT is rebuilt with `TO_DATE`
placeholders and `new_params`; otherwise the adapter's query runs as-is. -/
def oracleInsertExecuted (table : String) (params : Dict) : String × Dict :=
  if params.any (fun p => is_datetime_string (pyStr p.2)) then
    ("INSERT INTO " ++ pyUpper table ++ " (" ++
       String.intercalate ", " (params.map Prod.fst) ++ ") VALUES (" ++
       String.intercalate ", " (params.map (fun p => oracleFormatPlaceholder p.1 p.2)) ++ ")",
     oracleRebuildParams params)
  else
    oracleGetInsertQuery table params

/-! ### Row normalization (`DataManager.select_data` /
`select_data_with_pagination`, the shared row-processing loop) -/

/-- One value of a fetched row: converted via
`strftime("%Y-%m-%d %H:%M:%S")` when it has a `strftime` attribute,
passed through unchanged otherwise. -/
def processValue (v : Value) : Value :=
  if hasStrftime v then Value.vStr (strftimeCanonical v) else v

/-- The row-processing loop: each `(column, value)` pair of the row is
rebuilt with `processValue` applied to the value. -/
def processRow (row : List (String × Value)) : List (String × Value) :=
  row.map (fun p => (p.1, processValue p.2))

/-! ### Pagination (`DataManager.select_data_with_pagination`) -/

/-- The fields of the dictionary `select_data_with_pagination` returns,
plus the generated paginated query/params (observable via the debug log
and the executed statement). -/
structure PaginationOutcome where
  query : String
  params : Dict
  page : Nat
  pageSize : Nat
  totalPages : Nat
  totalRecords : Nat
deriving DecidableEq

/-- `DataManager.select_data_with_pagination` after the COUNT query
returned `totalRecords` (MySQL adapter): computes
`total_pages = (total_records + page_size - 1) // page_size` and
`offset = (page - 1) * page_size`, merges `limit`/`offset` into
the conditions dict with `dict.update`, and generates the paginated
SELECT from the merged dict. -/
def selectDataWithPagination (table : String) (totalRecords : Nat)
    (page pageSize : Nat) (conditions : Dict) : PaginationOutcome :=
  let totalPages := (totalRecords + pageSize - 1) / pageSize
  let offset := (page - 1) * pageSize
  let paginatedConditions :=
    dictUpdate [("limit", Value.vInt pageSize), ("offset", Value.vInt offset)] conditions
  let qp := mysqlGetPaginatedSelectQuery table paginatedConditions
  { query := qp.1, params := qp.2, page := page, pageSize := pageSize,
    totalPages := totalPages, totalRecords := totalRecords }

/-! ### Batch operations (`DataManager.batch_insert_data` /
`batch_update_data`)

The single-record operation invoked per entry is abstracted as a function
of the entry's index and payload; `InsOutcome` distinguishes a returned
value from a raised exception (the `except` arm of the loop body). -/

/-- Outcome of one `insert_data` call inside the batch loop. -/
inductive InsOutcome where
  | ret (b : Bool)
  | exn (msg : String)
deriving DecidableEq

/-- One collected failure: index, the record's input data, error message. -/
structure FailedRecord where
  index : Nat
  data : Dict
  error : String
deriving DecidableEq

/-- Aggregate result of a batch operation. -/
structure BatchResult where
  successCount : Nat
  failureCount : Nat
  failedRecords : List FailedRecord
deriving DecidableEq

/-- The `for i, data in enumerate(data_list)` loop of `batch_insert_data`. -/
def batchInsertGo (ins : Nat → Dict → InsOutcome) (i : Nat) (rest : List Dict)
    (succ fail : Nat) (failed : List FailedRecord) : BatchResult :=
  match rest with
  | [] => ⟨succ, fail, failed⟩
  | d :: rest =>
      match ins i d with
      | InsOutcome.ret true => batchInsertGo ins (i + 1) rest (succ + 1) fail failed
      | InsOutcome.ret false =>
          batchInsertGo ins (i + 1) rest succ (fail + 1)
            (failed ++ [⟨i, d, "Insert operation returned False"⟩])
      | InsOutcome.exn e =>
          batchInsertGo ins (i + 1) rest succ (fail + 1) (failed ++ [⟨i, d, e⟩])

/-- `DataManager.batch_insert_data`: every record attempted in order,
failures collected, aggregate counts returned. -/
def batchInsertData (ins : Nat → Dict → InsOutcome) (dataList : List Dict) : BatchResult :=
  batchInsertGo ins 0 dataList 0 0 []

/-- Outcome of one `update_data` call inside the batch-update loop:
`update_data` returns a row count (−1 on failure) and never raises, but
the loop still guards with `try`, so a raised exception is representable. -/
inductive UpdOutcome where
  | ret (rows : Int)
  | exn (msg : String)
deriving DecidableEq

/-- The per-entry loop of `batch_update_data` over the zipped lists,
threading the abstract table state `σ` through the updates. -/
def batchUpdateGo {σ : Type} (upd : σ → Dict → Dict → σ × UpdOutcome)
    (st : σ) (pairs : List (Dict × Dict))
    (succ fail : Nat) (total : Int) : σ × Nat × Nat × Int :=
  match pairs with
  | [] => (st, succ, fail, total)
  | (d, c) :: rest =>
      match upd st d c with
      | (st', UpdOutcome.ret rows) =>
          if rows ≥ 0 then batchUpdateGo upd st' rest (succ + 1) fail (total + rows)
          else batchUpdateGo upd st' rest succ (fail + 1) total
      | (st', UpdOutcome.exn _) => batchUpdateGo upd st' rest succ (fail + 1) total

/-- `DataManager.batch_update_data`: raises `ValueError` (before touching
the table) when the two lists differ in length, otherwise runs every
update and aggregates.  The returned state is the table state after the
call; on the arity error it is the input state unchanged. -/
def batchUpdateData {σ : Type} (upd : σ → Dict → Dict → σ × UpdOutcome)
    (st : σ) (dataList : List Dict) (conditionsList : List Dict) :
    σ × Except String (Nat × Nat × Int) :=
  if dataList.length ≠ conditionsList.length then
    (st, Except.error "Data list and conditions list must have the same length")
  else
    let r := batchUpdateGo upd st (dataList.zip conditionsList) 0 0 0
    (r.1, Except.ok r.2)

/-! ### Operation boundary (`DataManager` / `TableManager` single-record
operations)

Each operation resolves `(engine, adapter)` through the
`ConnectionManager` and wraps its body in
`try ... except SQLAlchemyError ... except Exception`, so the body either
returns a value or raises an exception that the handler converts to the
operation's sentinel.  The registry is the pair of name-keyed maps; the
body's behaviour is abstracted as an `ExecOutcome`. -/

/-- The `ConnectionManager`'s two maps (`connections`, `adapters`), with
the stored handles/adapters abstracted to their engine tags. -/
structure Registry where
  connections : List (String × String)
  adapters : List (String × String)
deriving DecidableEq

/-- `get_connection(name)`. -/
def getConnection (reg : Registry) (name : String) : Option String :=
  List.lookup name reg.connections

/-- `get_adapter(name)`. -/
def getAdapter (reg : Registry) (name : String) : Option String :=
  List.lookup name reg.adapters

/-- Result of running an operation's try-block body: a returned value or a
raised exception. -/
inductive ExecOutcome (α : Type) where
  | ok (a : α)
  | raised (msg : String)
deriving DecidableEq

/-- `DataManager.insert_data` at the operation boundary: `False` when the
connection or adapter is missing or the body raises, `True` on commit. -/
def insertDataResult (reg : Registry) (name : String) (body : ExecOutcome Unit) : Bool :=
  match getConnection reg name with
  | none => false
  | some _ =>
      match getAdapter reg name with
      | none => false
      | some _ =>
          match body with
          | ExecOutcome.ok _ => true
          | ExecOutcome.raised _ => false

/-- `DataManager.update_data` at the operation boundary: −1 on missing
connection/adapter or a raised body, the row count otherwise. -/
def updateDataResult (reg : Registry) (name : String) (body : ExecOutcome Int) : Int :=
  match getConnection reg name with
  | none => -1
  | some _ =>
      match getAdapter reg name with
      | none => -1
      | some _ =>
          match body with
          | ExecOutcome.ok rows => rows
          | ExecOutcome.raised _ => -1

/-- `DataManager.delete_data` at the operation boundary (same shape as
`update_data`). -/
def deleteDataResult (reg : Registry) (name : String) (body : ExecOutcome Int) : Int :=
  updateDataResult reg name body

/-- `DataManager.select_data` at the operation boundary: `None` on missing
connection/adapter or a raised body, the processed rows otherwise. -/
def selectDataResult (reg : Registry) (name : String)
    (body : ExecOutcome (List (String × Value))) : Option (List (String × Value)) :=
  match getConnection reg name with
  | none => none
  | some _ =>
      match getAdapter reg name with
      | none => none
      | some _ =>
          match body with
          | ExecOutcome.ok rows => some (processRow rows)
          | ExecOutcome.raised _ => none

/-- `TableManager.create_table` at the operation boundary. -/
def createTableResult (reg : Registry) (name : String) (body : ExecOutcome Unit) : Bool :=
  insertDataResult reg name body

/-- `TableManager.drop_table` at the operation boundary. -/
def dropTableResult (reg : Registry) (name : String) (body : ExecOutcome Unit) : Bool :=
  insertDataResult reg name body

/-- `TableManager.alter_table` at the operation boundary. -/
def alterTableResult (reg : Registry) (name : String) (body : ExecOutcome Unit) : Bool :=
  insertDataResult reg name body

/-- `TableManager.list_tables` at the operation boundary. -/
def listTablesResult (reg : Registry) (name : String)
    (body : ExecOutcome (List String)) : Option (List String) :=
  match getConnection reg name with
  | none => none
  | some _ =>
      match getAdapter reg name with
      | none => none
      | some _ =>
          match body with
          | ExecOutcome.ok tables => some tables
          | ExecOutcome.raised _ => none

/-- `TableManager.get_table_structure` at the operation boundary. -/
def getTableStructureResult (reg : Registry) (name : String)
    (body : ExecOutcome (List Dict)) : Option (List Dict) :=
  match getConnection reg name with
  | none => none
  | some _ =>
      match getAdapter reg name with
      | none => none
      | some _ =>
          match body with
          | ExecOutcome.ok cols => some cols
          | ExecOutcome.raised _ => none

/-! ### `TableManager.alter_table` transaction body

All operation statements are generated and executed inside one
`conn.begin()` transaction.  `gen` abstracts
`adapter.get_alter_table_statement` (which may raise), `exec` abstracts
statement execution against the table state `σ` (which may raise); a
raised step rolls the transaction back, so the observable state reverts
to the state at `begin()`. -/

/-- The statement loop: `st0` is the state at `begin()` (restored on
rollback), `cur` the uncommitted working state. -/
def alterTableGo {σ : Type} (gen : AlterOperation → Except String String)
    (exec : σ → String → ExecOutcome σ) (st0 cur : σ)
    (ops : List AlterOperation) : σ × Bool :=
  match ops with
  | [] => (cur, true)
  | op :: rest =>
      match gen op with
      | Except.error _ => (st0, false)
      | Except.ok stmt =>
          match exec cur stmt with
          | ExecOutcome.raised _ => (st0, false)
          | ExecOutcome.ok next => alterTableGo gen exec st0 next rest

/-- `TableManager.alter_table`'s transaction: commit exposes the final
state and returns `True`; any failure rolls back to the initial state and
returns `False`. -/
def alterTableTxn {σ : Type} (gen : AlterOperation → Except String String)
    (exec : σ → String → ExecOutcome σ) (st : σ)
    (ops : List AlterOperation) : σ × Bool :=
  alterTableGo gen exec st st ops

/-- Reference semantics: run every operation in sequence, `none` as soon
as generation or execution fails. -/
def runAllOps {σ : Type} (gen : AlterOperation → Except String String)
    (exec : σ → String → ExecOutcome σ) (st : σ)
    (ops : List AlterOperation) : Option σ :=
  match ops with
  | [] => some st
  | op :: rest =>
      match gen op with
      | Except.error _ => none
      | Except.ok stmt =>
          match exec st stmt with
          | ExecOutcome.raised _ => none
          | ExecOutcome.ok next => runAllOps gen exec next rest

/-! ### `ConnectionManager.initialize_from_config` -/

/-- A connection descriptor as consumed by `initialize_from_config`:
`enabled` is the value stored under the `"enabled"` key, `none` when the
key is absent. -/
structure ConnDescriptor where
  name : String
  enabled : Option Value := none
deriving DecidableEq

/-- Python truthiness of the values that can sit under `"enabled"`. -/
def truthy : Value → Bool
  | Value.vNone => false
  | Value.vBool b => b
  | Value.vInt n => n ≠ 0
  | Value.vStr s => !s.isEmpty
  | Value.vDatetime _ _ _ _ _ _ => true
  | Value.vDate _ _ _ => true

/-- `conn_config.get("enabled", False)` fed to the skip test. -/
def enabledValue (c : ConnDescriptor) : Value :=
  match c.enabled with
  | none => Value.vBool false
  | some v => v

/-- Outcome of the `add_connection` attempt for one descriptor: the
returned Bool, or an exception caught by the surrounding `try` (which
records `False`). -/
inductive AddOutcome where
  | ret (b : Bool)
  | exn (msg : String)
deriving DecidableEq

/-- The success flag recorded in the results dict for one attempt. -/
def addOutcomeBool : AddOutcome → Bool
  | AddOutcome.ret b => b
  | AddOutcome.exn _ => false

/-- The name→success results dict, as an insertion-ordered assoc list with
Python dict assignment semantics. -/
def resultsSet (r : List (String × Bool)) (k : String) (v : Bool) :
    List (String × Bool) :=
  if r.any (fun p => p.1 == k) then
    r.map (fun p => if p.1 == k then (p.1, v) else p)
  else
    r ++ [(k, v)]

/-- The loop body of `initialize_from_config` for one descriptor:
descriptors whose `enabled` value is not truthy are skipped with no
attempt; otherwise `add_connection` is attempted and its outcome recorded. -/
def initStep (att : ConnDescriptor → AddOutcome)
    (results : List (String × Bool)) (c : ConnDescriptor) : List (String × Bool) :=
  if truthy (enabledValue c) then
    resultsSet results c.name (addOutcomeBool (att c))
  else
    results

/-- `ConnectionManager.initialize_from_config`. -/
def initFromConfig (att : ConnDescriptor → AddOutcome)
    (configs : List ConnDescriptor) : List (String × Bool) :=
  configs.foldl (initStep att) []

/-! ## Theorems -/

/-- C3: `SQLiteAdapter.get_alter_table_statement` returns an
`ALTER TABLE ... ADD COLUMN` statement exactly when the operation tag is
`add_column`, and raises an unsupported-operation error for
`drop_column`, `modify_column`, `rename_column` and every unrecognized
tag — it never returns a statement or silently no-ops for those. -/
theorem sqlite_alter_add_column_only (table : String) (op : AlterOperation) :
    (op.tag = "add_column" →
      sqliteGetAlterTableStatement table op =
        Except.ok ("ALTER TABLE " ++ table ++ " ADD COLUMN " ++ sqliteAddColumnDef op)) ∧
    (op.tag ≠ "add_column" →
      ∃ msg, sqliteGetAlterTableStatement table op = Except.error msg) := by
  constructor
  · intro h
    simp [sqliteGetAlterTableStatement, h]
  · intro h
    have hb : (op.tag == "add_column") = false := by
      simpa using h
    simp only [sqliteGetAlterTableStatement, hb, Bool.false_eq_true, if_false]
    cases h2 : (op.tag == "drop_column" || op.tag == "modify_column" ||
        op.tag == "rename_column") <;> simp [h2]

/-- Witness for C3 at concrete operations: `add_column` on column `c` of
type `TEXT` yields the ADD COLUMN statement; `drop_column` is rejected. -/
theorem sqlite_alter_add_column_only_witness :
    sqliteGetAlterTableStatement "t" { tag := "add_column", name := "c", colType := "TEXT" } =
      Except.ok "ALTER TABLE t ADD COLUMN c TEXT" ∧
    (∃ msg, sqliteGetAlterTableStatement "t" { tag := "drop_column", name := "c" } =
      Except.error msg) := by
  refine ⟨?_, (sqlite_alter_add_column_only "t" _).2 (by decide)⟩
  have h := (sqlite_alter_add_column_only "t"
    { tag := "add_column", name := "c", colType := "TEXT" }).1 rfl
  simpa [sqliteAddColumnDef, defaultFragment] using h

/-- C4: `batch_update_data` with lists of different lengths raises the
arity-mismatch `ValueError` before executing any update, leaving the
table state untouched; with equal lengths no such error is raised. -/
theorem batch_update_arity_check {σ : Type} (upd : σ → Dict → Dict → σ × UpdOutcome)
    (st : σ) (dataList conditionsList : List Dict) :
    (dataList.length ≠ conditionsList.length →
      batchUpdateData upd st dataList conditionsList =
        (st, Except.error "Data list and conditions list must have the same length")) ∧
    (dataList.length = conditionsList.length →
      ∃ st' r, batchUpdateData upd st dataList conditionsList = (st', Except.ok r)) := by
  constructor
  · intro h
    simp [batchUpdateData, h]
  · intro h
    refine ⟨(batchUpdateGo upd st (dataList.zip conditionsList) 0 0 0).1,
      (batchUpdateGo upd st (dataList.zip conditionsList) 0 0 0).2, ?_⟩
    simp [batchUpdateData, h]

/-- Witness for C4, Scenario D: one data record against two condition
dicts raises the arity error with the state (0) unchanged. -/
theorem batch_update_arity_check_witness :
    batchUpdateData (σ := Nat) (fun s _ _ => (s + 1, UpdOutcome.ret 1)) 0
      [[("name", Value.vStr "x")]] [[("id", Value.vInt 1)], [("id", Value.vInt 2)]] =
      (0, Except.error "Data list and conditions list must have the same length") :=
  (batch_update_arity_check (fun s _ _ => (s + 1, UpdOutcome.ret 1)) 0
    [[("name", Value.vStr "x")]] [[("id", Value.vInt 1)], [("id", Value.vInt 2)]]).1
    (by decide)

/-- C6 counterexample: for SQL Server the cascade flag is not a no-op —
`cascade=True` produces `DROP TABLE IF EXISTS t`, a different statement
from the `cascade=False` result `DROP TABLE t`. -/
theorem sqlserver_drop_cascade_not_noop :
    sqlserverGetDropTableStatement "t" true = "DROP TABLE IF EXISTS t" ∧
    sqlserverGetDropTableStatement "t" false = "DROP TABLE t" ∧
    sqlserverGetDropTableStatement "t" true ≠ sqlserverGetDropTableStatement "t" false := by
  refine ⟨rfl, ?_, by decide⟩
  simp [sqlserverGetDropTableStatement]

/-- C6 amended: with `cascade=true` MySQL and PostgreSQL append
` CASCADE` and Oracle appends ` CASCADE CONSTRAINTS`; SQLite ignores the
flag entirely (identical statement either way); SQL Server maps
`cascade=true` to a `DROP TABLE IF EXISTS` prefix instead of a no-op. -/
theorem drop_table_cascade_by_engine (table : String) :
    mysqlGetDropTableStatement table true =
      mysqlGetDropTableStatement table false ++ " CASCADE" ∧
    postgresqlGetDropTableStatement table true =
      postgresqlGetDropTableStatement table false ++ " CASCADE" ∧
    oracleGetDropTableStatement table true =
      oracleGetDropTableStatement table false ++ " CASCADE CONSTRAINTS" ∧
    sqliteGetDropTableStatement table true = sqliteGetDropTableStatement table false ∧
    sqlserverGetDropTableStatement table true = "DROP TABLE IF EXISTS " ++ table ∧
    sqlserverGetDropTableStatement table false = "DROP TABLE " ++ table := by
  refine ⟨?_, ?_, ?_, rfl, rfl, rfl⟩ <;>
    simp [mysqlGetDropTableStatement, postgresqlGetDropTableStatement,
      oracleGetDropTableStatement, String.append_assoc]

/-- C8: every single-record operation returns its sentinel value (`false`
for booleans, `-1` for row counts, `none` for reads) both when the
connection name cannot be resolved and when the execution body raises;
the operations are total functions, so no exception escapes the boundary. -/
theorem single_record_ops_sentinel (reg : Registry) (name : String) :
    (getConnection reg name = none ∨ getAdapter reg name = none →
      (∀ b, insertDataResult reg name b = false) ∧
      (∀ b, updateDataResult reg name b = -1) ∧
      (∀ b, deleteDataResult reg name b = -1) ∧
      (∀ b, createTableResult reg name b = false) ∧
      (∀ b, dropTableResult reg name b = false) ∧
      (∀ b, alterTableResult reg name b = false) ∧
      (∀ b, selectDataResult reg name b = none) ∧
      (∀ b, listTablesResult reg name b = none) ∧
      (∀ b, getTableStructureResult reg name b = none)) ∧
    (∀ msg,
      insertDataResult reg name (ExecOutcome.raised msg) = false ∧
      updateDataResult reg name (ExecOutcome.raised msg) = -1 ∧
      deleteDataResult reg name (ExecOutcome.raised msg) = -1 ∧
      createTableResult reg name (ExecOutcome.raised msg) = false ∧
      dropTableResult reg name (ExecOutcome.raised msg) = false ∧
      alterTableResult reg name (ExecOutcome.raised msg) = false ∧
      selectDataResult reg name (ExecOutcome.raised msg) = none ∧
      listTablesResult reg name (ExecOutcome.raised msg) = none ∧
      getTableStructureResult reg name (ExecOutcome.raised msg) = none) := by
  constructor
  · intro h
    rcases h with h | h <;>
      refine ⟨?_, ?_, ?_, ?_, ?_, ?_, ?_, ?_, ?_⟩ <;> intro b <;>
        simp [insertDataResult, updateDataResult, deleteDataResult,
          createTableResult, dropTableResult, alterTableResult,
          selectDataResult, listTablesResult, getTableStructureResult, h] <;>
        cases hc : getConnection reg name <;> simp [hc, h]
  · intro msg
    refine ⟨?_, ?_, ?_, ?_, ?_, ?_, ?_, ?_, ?_⟩ <;>
      simp [insertDataResult, updateDataResult, deleteDataResult,
        createTableResult, dropTableResult, alterTableResult,
        selectDataResult, listTablesResult, getTableStructureResult] <;>
      cases hc : getConnection reg name <;>
        cases ha : getAdapter reg name <;> simp

/-- Witness for C8: against an empty registry, the unknown name `db`
yields each operation's sentinel, and a raised body does as well. -/
theorem single_record_ops_sentinel_witness :
    insertDataResult ⟨[], []⟩ "db" (ExecOutcome.ok ()) = false ∧
    updateDataResult ⟨[], []⟩ "db" (ExecOutcome.ok 3) = -1 ∧
    selectDataResult ⟨[], []⟩ "db" (ExecOutcome.ok []) = none ∧
    insertDataResult ⟨[("db", "sqlite")], [("db", "sqlite")]⟩ "db"
      (ExecOutcome.raised "boom") = false := by
  have h := single_record_ops_sentinel ⟨[], []⟩ "db"
  have h2 := single_record_ops_sentinel ⟨[("db", "sqlite")], [("db", "sqlite")]⟩ "db"
  exact ⟨(h.1 (Or.inl rfl)).1 _, (h.1 (Or.inl rfl)).2.1 _,
    (h.1 (Or.inl rfl)).2.2.2.2.2.2.1 _, (h2.2 "boom").1⟩

/-- C1 counterexample: inserting the date-only string `2024-01-15` on an
Oracle connection wraps it in `TO_DATE(:d, 'YYYY-MM-DD')` — not the
claimed `TO_DATE(:d, 'YYYY-MM-DD HH24:MI:SS')` — and binds the value
unpadded (no `00:00:00` appended). -/
theorem oracle_insert_date_only_counterexample :
    (oracleInsertExecuted "t" [("d", Value.vStr "2024-01-15")]).1 =
      "INSERT INTO T (d) VALUES (TO_DATE(:d, " ++ sq ++ "YYYY-MM-DD" ++ sq ++ "))" ∧
    (oracleInsertExecuted "t" [("d", Value.vStr "2024-01-15")]).1 ≠
      "INSERT INTO T (d) VALUES (TO_DATE(:d, " ++ sq ++ "YYYY-MM-DD HH24:MI:SS" ++ sq ++ "))" ∧
    (oracleInsertExecuted "t" [("d", Value.vStr "2024-01-15")]).2 =
      [("d", Value.vStr "2024-01-15")] := by
  decide

/-- C1 amended: when the data contains a string matching the datetime
regex, the Oracle INSERT is rebuilt so that every value gets
`oracleFormatPlaceholder`: strings with a time component are wrapped in
`TO_DATE(:param, 'YYYY-MM-DD HH24:MI:SS')`, date-only strings in
`TO_DATE(:param, 'YYYY-MM-DD')`, and each bound value is unchanged. -/
theorem oracle_insert_datetime_wrapping (table k s : String) (data : Dict)
    (hs : is_datetime_string s = true) (hmem : (k, Value.vStr s) ∈ data) :
    (oracleInsertExecuted table data).1 =
      "INSERT INTO " ++ pyUpper table ++ " (" ++
        String.intercalate ", " (data.map Prod.fst) ++ ") VALUES (" ++
        String.intercalate ", " (data.map (fun p => oracleFormatPlaceholder p.1 p.2)) ++ ")" ∧
    (oracleInsertExecuted table data).2 = data ∧
    (containsSpace s = true →
      oracleFormatPlaceholder k (Value.vStr s) =
        "TO_DATE(:" ++ k ++ ", " ++ sq ++ "YYYY-MM-DD HH24:MI:SS" ++ sq ++ ")") ∧
    (containsSpace s = false →
      oracleFormatPlaceholder k (Value.vStr s) =
        "TO_DATE(:" ++ k ++ ", " ++ sq ++ "YYYY-MM-DD" ++ sq ++ ")") := by
  have hguard : data.any (fun p => is_datetime_string (pyStr p.2)) = true :=
    List.any_eq_true.mpr ⟨(k, Value.vStr s), hmem, by simpa [pyStr] using hs⟩
  refine ⟨?_, ?_, ?_, ?_⟩
  · simp [oracleInsertExecuted, hguard]
  · simp [oracleInsertExecuted, hguard, oracleRebuildParams]
  · intro h
    simp [oracleFormatPlaceholder, hs, h]
  · intro h
    simp [oracleFormatPlaceholder, hs, h]

/-- Witness for C1 amended at a full datetime string and a one-entry dict. -/
theorem oracle_insert_datetime_wrapping_witness :
    oracleFormatPlaceholder "d" (Value.vStr "2024-01-15 10:00:00") =
      "TO_DATE(:d, " ++ sq ++ "YYYY-MM-DD HH24:MI:SS" ++ sq ++ ")" ∧
    (oracleInsertExecuted "t" [("d", Value.vStr "2024-01-15 10:00:00")]).2 =
      [("d", Value.vStr "2024-01-15 10:00:00")] := by
  have h := oracle_insert_datetime_wrapping "t" "d" "2024-01-15 10:00:00"
    [("d", Value.vStr "2024-01-15 10:00:00")] (by decide) (by simp)
  exact ⟨h.2.2.1 (by decide), h.2.1⟩

/-- The transaction loop of `alter_table`: a failed run reverts to the
state at `begin()`; a successful run exposes exactly the sequential
execution of every generated statement. -/
theorem alterTableGo_spec {σ : Type} (gen : AlterOperation → Except String String)
    (exec : σ → String → ExecOutcome σ) :
    ∀ (ops : List AlterOperation) (st0 cur : σ),
      ((alterTableGo gen exec st0 cur ops).2 = false →
        (alterTableGo gen exec st0 cur ops).1 = st0) ∧
      ((alterTableGo gen exec st0 cur ops).2 = true →
        runAllOps gen exec cur ops = some (alterTableGo gen exec st0 cur ops).1) := by
  intro ops
  induction ops with
  | nil =>
      intro st0 cur
      constructor
      · intro h
        simp [alterTableGo] at h
      · intro _
        simp [alterTableGo, runAllOps]
  | cons op rest ih =>
      intro st0 cur
      cases hg : gen op with
      | error e => simp [alterTableGo, runAllOps, hg]
      | ok stmt =>
          cases he : exec cur stmt with
          | raised m => simp [alterTableGo, runAllOps, hg, he]
          | ok next =>
              simpa [alterTableGo, runAllOps, hg, he] using ih st0 next

/-- C9: `alter_table` executes all operations inside one transaction —
when the call returns `False` the observable table state is exactly the
pre-call state (full rollback, no partial schema change); when it
returns `True` the state is the sequential execution of every
operation's statement. -/
theorem alter_table_all_or_nothing {σ : Type}
    (gen : AlterOperation → Except String String)
    (exec : σ → String → ExecOutcome σ) (st : σ) (ops : List AlterOperation) :
    ((alterTableTxn gen exec st ops).2 = false →
      (alterTableTxn gen exec st ops).1 = st) ∧
    ((alterTableTxn gen exec st ops).2 = true →
      runAllOps gen exec st ops = some (alterTableTxn gen exec st ops).1) :=
  alterTableGo_spec gen exec ops st st

/-- Witness for C9: three operations where the second fails to generate
leave the state (0) unchanged with result `False`; and an all-good pair
of operations commits the sequentially updated state. -/
theorem alter_table_all_or_nothing_witness :
    (alterTableTxn (σ := Nat)
      (fun op => if op.tag == "add_column" then Except.ok "S" else Except.error "no")
      (fun s _ => ExecOutcome.ok (s + 1)) 0
      [{ tag := "add_column" }, { tag := "drop_column" }, { tag := "add_column" }]).1 = 0 ∧
    runAllOps (σ := Nat)
      (fun op => if op.tag == "add_column" then Except.ok "S" else Except.error "no")
      (fun s _ => ExecOutcome.ok (s + 1)) 0
      [{ tag := "add_column" }, { tag := "add_column" }] =
      some (alterTableTxn (σ := Nat)
        (fun op => if op.tag == "add_column" then Except.ok "S" else Except.error "no")
        (fun s _ => ExecOutcome.ok (s + 1)) 0
        [{ tag := "add_column" }, { tag := "add_column" }]).1 := by
  constructor
  · exact (alter_table_all_or_nothing _ _ 0
      [{ tag := "add_column" }, { tag := "drop_column" }, { tag := "add_column" }]).1
      (by decide)
  · exact (alter_table_all_or_nothing _ _ 0
      [{ tag := "add_column" }, { tag := "add_column" }]).2 (by decide)

/-- The `initialize_from_config` fold visits exactly the descriptors that
pass the truthiness gate. -/
theorem initFromConfig_filter (att : ConnDescriptor → AddOutcome) :
    ∀ (configs : List ConnDescriptor) (acc : List (String × Bool)),
      configs.foldl (initStep att) acc =
        (configs.filter (fun c => truthy (enabledValue c))).foldl
          (fun r c => resultsSet r c.name (addOutcomeBool (att c))) acc := by
  intro configs
  induction configs with
  | nil => intro acc; rfl
  | cons c rest ih =>
      intro acc
      by_cases h : truthy (enabledValue c) = true
      · have h1 : initStep att acc c = resultsSet acc c.name (addOutcomeBool (att c)) := by
          simp [initStep, h]
        rw [List.foldl_cons, h1, ih, List.filter_cons]
        simp [h]
      · have hb : truthy (enabledValue c) = false := by simpa using h
        have h1 : initStep att acc c = acc := by
          simp [initStep, hb]
        rw [List.foldl_cons, h1, ih, List.filter_cons]
        simp [hb]

/-- C10: `initialize_from_config` attempts a connection exactly for the
descriptors whose `enabled` value is truthy, recording one name→success
entry per attempt; a descriptor whose `enabled` key is absent defaults to
`False`, so it is treated exactly like `enabled=false`: skipped with no
attempt and no entry. -/
theorem init_from_config_enabled_gate (att : ConnDescriptor → AddOutcome)
    (configs : List ConnDescriptor) :
    initFromConfig att configs =
      (configs.filter (fun c => truthy (enabledValue c))).foldl
        (fun r c => resultsSet r c.name (addOutcomeBool (att c))) [] ∧
    ∀ c : ConnDescriptor, c.enabled = none →
      truthy (enabledValue c) = false ∧
      ∀ r, initStep att r c = r ∧
        initStep att r { c with enabled := some (Value.vBool false) } = r := by
  refine ⟨initFromConfig_filter att configs [], ?_⟩
  intro c hc
  have hv : enabledValue c = Value.vBool false := by simp [enabledValue, hc]
  refine ⟨by simp [hv, truthy], ?_⟩
  intro r
  constructor
  · simp [initStep, hv, truthy]
  · simp [initStep, enabledValue, truthy]

/-- Witness for C10: a descriptor with no `enabled` key is skipped, and a
mixed list yields entries only for the explicitly enabled descriptor. -/
theorem init_from_config_enabled_gate_witness :
    truthy (enabledValue ⟨"a", none⟩) = false ∧
    initStep (fun _ => AddOutcome.ret true) [] ⟨"a", none⟩ = [] ∧
    initFromConfig (fun _ => AddOutcome.ret true)
      [⟨"a", none⟩, ⟨"b", some (Value.vBool true)⟩] = [("b", true)] := by
  have h := init_from_config_enabled_gate (fun _ => AddOutcome.ret true)
    [⟨"a", none⟩, ⟨"b", some (Value.vBool true)⟩]
  refine ⟨(h.2 ⟨"a", none⟩ rfl).1, ((h.2 ⟨"a", none⟩ rfl).2 []).1, ?_⟩
  rw [h.1]
  decide

/-- Reference list of failures for a batch insert starting at index `i`:
one record per entry whose outcome is not a successful `True` return,
carrying the entry's index, its input data, and the error message. -/
def batchFailedSpec (ins : Nat → Dict → InsOutcome) : Nat → List Dict → List FailedRecord
  | _, [] => []
  | i, d :: rest =>
      match ins i d with
      | InsOutcome.ret true => batchFailedSpec ins (i + 1) rest
      | InsOutcome.ret false =>
          ⟨i, d, "Insert operation returned False"⟩ :: batchFailedSpec ins (i + 1) rest
      | InsOutcome.exn e => ⟨i, d, e⟩ :: batchFailedSpec ins (i + 1) rest

/-- Reference count of successful inserts starting at index `i`. -/
def batchSuccSpec (ins : Nat → Dict → InsOutcome) : Nat → List Dict → Nat
  | _, [] => 0
  | i, d :: rest =>
      match ins i d with
      | InsOutcome.ret true => batchSuccSpec ins (i + 1) rest + 1
      | _ => batchSuccSpec ins (i + 1) rest

/-- The batch-insert loop accumulates exactly the reference counts and the
reference failure list. -/
theorem batchInsertGo_spec (ins : Nat → Dict → InsOutcome) :
    ∀ (rest : List Dict) (i succ fail : Nat) (failed : List FailedRecord),
      batchInsertGo ins i rest succ fail failed =
        ⟨succ + batchSuccSpec ins i rest,
         fail + (batchFailedSpec ins i rest).length,
         failed ++ batchFailedSpec ins i rest⟩ := by
  intro rest
  induction rest with
  | nil =>
      intro i succ fail failed
      simp [batchInsertGo, batchSuccSpec, batchFailedSpec]
  | cons d rest ih =>
      intro i succ fail failed
      cases h : ins i d with
      | ret b =>
          cases b
          · simp only [batchInsertGo, h, batchSuccSpec, batchFailedSpec]
            rw [ih]
            simp [Nat.add_assoc, Nat.add_comm, Nat.add_left_comm]
          · simp only [batchInsertGo, h, batchSuccSpec, batchFailedSpec]
            rw [ih]
            simp [Nat.add_assoc, Nat.add_comm, Nat.add_left_comm]
      | exn e =>
          simp only [batchInsertGo, h, batchSuccSpec, batchFailedSpec]
          rw [ih]
          simp [Nat.add_assoc, Nat.add_comm, Nat.add_left_comm]

/-- Successes and failures partition the records. -/
theorem batchSpec_partition (ins : Nat → Dict → InsOutcome) :
    ∀ (l : List Dict) (i : Nat),
      batchSuccSpec ins i l + (batchFailedSpec ins i l).length = l.length := by
  intro l
  induction l with
  | nil => intro i; simp [batchSuccSpec, batchFailedSpec]
  | cons d rest ih =>
      intro i
      cases h : ins i d <;> rename_i b
      case ret =>
        cases b <;> simp only [batchSuccSpec, batchFailedSpec, h] <;>
          simp [List.length_cons, ← ih (i + 1)] <;> omega
      case exn =>
        simp only [batchSuccSpec, batchFailedSpec, h]
        simp [List.length_cons, ← ih (i + 1)]
        omega

/-- Every collected failure names a real record of the list at its own
index, and that record's outcome was not a successful return. -/
theorem batchFailedSpec_mem (ins : Nat → Dict → InsOutcome) :
    ∀ (l : List Dict) (i : Nat) (fr : FailedRecord),
      fr ∈ batchFailedSpec ins i l →
        i ≤ fr.index ∧ l[fr.index - i]? = some fr.data ∧
          ins fr.index fr.data ≠ InsOutcome.ret true := by
  intro l
  induction l with
  | nil => intro i fr h; simp [batchFailedSpec] at h
  | cons d rest ih =>
      intro i fr hmem
      cases h : ins i d with
      | ret b =>
          cases b
          · rw [batchFailedSpec, h] at hmem
            rcases List.mem_cons.mp hmem with heq | htail
            · subst heq
              refine ⟨Nat.le_refl i, ?_, ?_⟩
              · simp
              · simp [h]
            · obtain ⟨h1, h2, h3⟩ := ih (i + 1) fr htail
              refine ⟨by omega, ?_, h3⟩
              have hidx : fr.index - i = (fr.index - (i + 1)) + 1 := by omega
              rw [hidx]
              simpa using h2
          · rw [batchFailedSpec, h] at hmem
            obtain ⟨h1, h2, h3⟩ := ih (i + 1) fr hmem
            refine ⟨by omega, ?_, h3⟩
            have hidx : fr.index - i = (fr.index - (i + 1)) + 1 := by omega
            rw [hidx]
            simpa using h2
      | exn e =>
          rw [batchFailedSpec, h] at hmem
          rcases List.mem_cons.mp hmem with heq | htail
          · subst heq
            refine ⟨Nat.le_refl i, ?_, ?_⟩
            · simp
            · simp [h]
          · obtain ⟨h1, h2, h3⟩ := ih (i + 1) fr htail
            refine ⟨by omega, ?_, h3⟩
            have hidx : fr.index - i = (fr.index - (i + 1)) + 1 := by omega
            rw [hidx]
            simpa using h2

/-- C5: `batch_insert_data` attempts every record: the returned counts
always sum to the number of records, the failure list is exactly the
reference list of non-successful entries in order, its length is the
failure count, and each collected failure carries the index, input data
and error of a record whose own insert did not succeed. -/
theorem batch_insert_independence (ins : Nat → Dict → InsOutcome) (dataList : List Dict) :
    (batchInsertData ins dataList).successCount +
      (batchInsertData ins dataList).failureCount = dataList.length ∧
    (batchInsertData ins dataList).failedRecords = batchFailedSpec ins 0 dataList ∧
    (batchInsertData ins dataList).failureCount = (batchFailedSpec ins 0 dataList).length ∧
    ∀ fr, fr ∈ (batchInsertData ins dataList).failedRecords →
      dataList[fr.index]? = some fr.data ∧ ins fr.index fr.data ≠ InsOutcome.ret true := by
  have hgo := batchInsertGo_spec ins dataList 0 0 0 []
  have hres : batchInsertData ins dataList =
      ⟨batchSuccSpec ins 0 dataList, (batchFailedSpec ins 0 dataList).length,
       batchFailedSpec ins 0 dataList⟩ := by
    rw [batchInsertData, hgo]
    simp
  refine ⟨?_, ?_, ?_, ?_⟩
  · rw [hres]
    exact batchSpec_partition ins dataList 0
  · rw [hres]
  · rw [hres]
  · intro fr hmem
    rw [hres] at hmem
    obtain ⟨h1, h2, h3⟩ := batchFailedSpec_mem ins dataList 0 fr hmem
    exact ⟨by simpa using h2, h3⟩

/-- Witness for C5: three records where the middle one raises give
`successCount = 2`, `failureCount = 1`, and one failure entry carrying
index 1, the record's data, and the raised message. -/
theorem batch_insert_independence_witness :
    (batchInsertData (fun i _ => if i == 1 then InsOutcome.exn "bad" else InsOutcome.ret true)
        [[("id", Value.vInt 1)], [("id", Value.vInt 2)], [("id", Value.vInt 3)]]).successCount +
      (batchInsertData (fun i _ => if i == 1 then InsOutcome.exn "bad" else InsOutcome.ret true)
        [[("id", Value.vInt 1)], [("id", Value.vInt 2)], [("id", Value.vInt 3)]]).failureCount = 3 ∧
    [[("id", Value.vInt 1)], [("id", Value.vInt 2)], [("id", Value.vInt 3)]][(1 : Nat)]? =
      some [("id", Value.vInt 2)] := by
  have h := batch_insert_independence
    (fun i _ => if i == 1 then InsOutcome.exn "bad" else InsOutcome.ret true)
    [[("id", Value.vInt 1)], [("id", Value.vInt 2)], [("id", Value.vInt 3)]]
  exact ⟨h.1, (h.2.2.2 ⟨1, [("id", Value.vInt 2)], "bad"⟩ (by decide)).1⟩

/-- Setting a key absent from the dict appends the pair. -/
theorem dictSet_append (base : Dict) (k : String) (v : Value)
    (h : ∀ q ∈ base, q.1 ≠ k) : dictSet base k v = base ++ [(k, v)] := by
  have hany : base.any (fun p => p.1 == k) = false :=
    List.any_eq_false.mpr (fun q hq => by simpa using h q hq)
  simp [dictSet, hany]

/-- `base.update(adds)` is plain concatenation when the added keys are
pairwise distinct and disjoint from the base keys. -/
theorem dictUpdate_append : ∀ (adds base : Dict),
    (adds.map Prod.fst).Nodup →
    (∀ p ∈ adds, ∀ q ∈ base, q.1 ≠ p.1) →
    dictUpdate base adds = base ++ adds := by
  intro adds
  induction adds with
  | nil =>
      intro base _ _
      simp [dictUpdate]
  | cons a rest ih =>
      intro base hnd hdisj
      have hnd0 : a.1 ∉ rest.map Prod.fst ∧ (rest.map Prod.fst).Nodup := by
        rw [List.map_cons, List.nodup_cons] at hnd
        exact hnd
      have hset : dictSet base a.1 a.2 = base ++ [a] := by
        rw [dictSet_append base a.1 a.2 (fun q hq => hdisj a (List.mem_cons_self a rest) q hq)]
      have hdisj2 : ∀ p ∈ rest, ∀ q ∈ base ++ [a], q.1 ≠ p.1 := by
        intro p hp q hq
        rcases List.mem_append.mp hq with hq | hq
        · exact hdisj p (List.mem_cons_of_mem a hp) q hq
        · have hqa : q = a := by simpa using hq
          subst hqa
          intro hcontra
          exact hnd0.1 (hcontra ▸ List.mem_map_of_mem Prod.fst hp)
      calc dictUpdate base (a :: rest)
          = dictUpdate (dictSet base a.1 a.2) rest := rfl
        _ = dictUpdate (base ++ [a]) rest := by rw [hset]
        _ = (base ++ [a]) ++ rest := ih (base ++ [a]) hnd0.2 hdisj2
        _ = base ++ a :: rest := by simp

/-- Rendering a natural-number parameter value. -/
theorem pyStr_vInt_nat (n : Nat) : pyStr (Value.vInt n) = toString n := rfl

/-- `(n + s - 1) / s` is the exact ceiling of `n / s`: the smallest page
count whose capacity covers all records. -/
theorem ceil_div_characterization (tr ps : Nat) (hps : 0 < ps) :
    tr ≤ (tr + ps - 1) / ps * ps ∧ (tr + ps - 1) / ps * ps < tr + ps := by
  set q := (tr + ps - 1) / ps with hq
  set r := (tr + ps - 1) % ps with hr
  have h1 : ps * q + r = tr + ps - 1 := Nat.div_add_mod (tr + ps - 1) ps
  have h2 : r < ps := Nat.mod_lt (tr + ps - 1) hps
  rw [Nat.mul_comm q ps]
  set x := ps * q with hx
  omega

/-- C2 counterexample: a conditions dict that itself contains a key named
`limit` overrides the computed pagination through `dict.update` — with
`page=1, page_size=10` the generated SELECT carries `LIMIT 5`, not
`LIMIT 10`. -/
theorem select_pagination_limit_override :
    (selectDataWithPagination "t" 0 1 10 [("limit", Value.vInt 5)]).query =
      "SELECT * FROM `t` LIMIT 5 OFFSET 0" ∧
    (selectDataWithPagination "t" 0 1 10 [("limit", Value.vInt 5)]).query ≠
      "SELECT * FROM `t` LIMIT 10 OFFSET 0" := by
  decide

/-- C2 amended: for `page ≥ 1`, `page_size > 0` and a conditions dict
(with distinct keys) containing no key named `limit` or `offset`,
`select_data_with_pagination` returns
`total_pages = ceil(total_records / page_size)` (characterized as the
smallest covering page count) and generates the paginated SELECT with
`LIMIT page_size OFFSET (page-1)*page_size` over the given conditions. -/
theorem select_pagination_correct (table : String)
    (totalRecords page pageSize : Nat) (conditions : Dict)
    (_hpage : 1 ≤ page) (hps : 0 < pageSize)
    (hkeys : ∀ p ∈ conditions, p.1 ≠ "limit" ∧ p.1 ≠ "offset")
    (hnd : (conditions.map Prod.fst).Nodup) :
    totalRecords ≤
      (selectDataWithPagination table totalRecords page pageSize conditions).totalPages *
        pageSize ∧
    (selectDataWithPagination table totalRecords page pageSize conditions).totalPages *
        pageSize < totalRecords + pageSize ∧
    (selectDataWithPagination table totalRecords page pageSize conditions).query =
      "SELECT * FROM " ++ mysqlQuote table ++ whereClause mysqlQuote conditions ++
        " LIMIT " ++ toString pageSize ++ " OFFSET " ++
        toString ((page - 1) * pageSize) ∧
    (selectDataWithPagination table totalRecords page pageSize conditions).params =
      conditions ∧
    (selectDataWithPagination table totalRecords page pageSize conditions).totalRecords =
      totalRecords := by
  have hupd : dictUpdate
      [("limit", Value.vInt pageSize), ("offset", Value.vInt (((page - 1) * pageSize : Nat)))]
      conditions =
      [("limit", Value.vInt pageSize), ("offset", Value.vInt (((page - 1) * pageSize : Nat)))] ++
        conditions := by
    apply dictUpdate_append conditions _ hnd
    intro p hp q hq
    rcases hkeys p hp with ⟨h1, h2⟩
    rcases List.mem_cons.mp hq with hq | hq
    · subst hq
      exact fun hc => h1 hc.symm
    · have hqo : q = ("offset", Value.vInt (((page - 1) * pageSize : Nat))) := by simpa using hq
      subst hqo
      exact fun hc => h2 hc.symm
  have hrest : dictDropKeys
      (("limit", Value.vInt pageSize) ::
        ("offset", Value.vInt (((page - 1) * pageSize : Nat))) :: conditions)
      "limit" "offset" = conditions := by
    simp only [dictDropKeys, List.filter_cons]
    norm_num
    intro a b hab
    exact hkeys (a, b) hab
  have hquery : selectDataWithPagination table totalRecords page pageSize conditions =
      { query := "SELECT * FROM " ++ mysqlQuote table ++ whereClause mysqlQuote conditions ++
          " LIMIT " ++ toString pageSize ++ " OFFSET " ++ toString ((page - 1) * pageSize),
        params := conditions, page := page, pageSize := pageSize,
        totalPages := (totalRecords + pageSize - 1) / pageSize,
        totalRecords := totalRecords } := by
    rw [selectDataWithPagination]
    simp only [hupd]
    rw [mysqlGetPaginatedSelectQuery]
    simp only [List.cons_append, List.nil_append] at hrest ⊢
    rw [hrest]
    simp [dictGet, List.lookup, condParams, pyStr_vInt_nat]
    congr 1
  obtain ⟨hle, hlt⟩ := ceil_div_characterization totalRecords pageSize hps
  rw [hquery]
  exact ⟨hle, hlt, rfl, rfl, rfl⟩

/-- Witness for C2 amended: 25 records at page 2 of size 10 give a
covering page count and the query `LIMIT 10 OFFSET 10`. -/
theorem select_pagination_correct_witness :
    25 ≤ (selectDataWithPagination "t" 25 2 10 [("id", Value.vInt 7)]).totalPages * 10 ∧
    (selectDataWithPagination "t" 25 2 10 [("id", Value.vInt 7)]).query =
      "SELECT * FROM `t` WHERE `id` = :id LIMIT 10 OFFSET 10" := by
  have h := select_pagination_correct "t" 25 2 10 [("id", Value.vInt 7)]
    (by decide) (by decide) (by decide) (by decide)
  refine ⟨h.1, ?_⟩
  rw [h.2.2.1]
  decide

/-- Decimal digit characters produced by `strftime` field rendering. -/
theorem digitChar_mod_isDigit (n : Nat) : (Nat.digitChar (n % 10)).isDigit = true := by
  have h : n % 10 < 10 := Nat.mod_lt n (by norm_num)
  revert h
  generalize n % 10 = k
  intro h
  interval_cases k <;> rfl

/-- C7: row processing normalizes every temporal value to the canonical
`YYYY-MM-DD HH:MM:SS` string (which itself matches the datetime regex and
carries a time component, `00:00:00` for date-only objects), passes every
non-temporal value through unchanged, leaves no driver-native temporal
object in the output, and is exactly what `select_data` applies to each
fetched row. -/
theorem select_rows_temporal_normalization (row : List (String × Value)) :
    (processRow row).length = row.length ∧
    (∀ i : Nat, (processRow row)[i]? =
      (row[i]?).map (fun p => (p.1, processValue p.2))) ∧
    (∀ p ∈ processRow row, hasStrftime p.2 = false) ∧
    (∀ v : Value, hasStrftime v = false → processValue v = v) ∧
    (∀ v : Value, hasStrftime v = true →
      processValue v = Value.vStr (strftimeCanonical v)) ∧
    (∀ y mo d h mi s : Nat,
      is_datetime_string (strftimeCanonical (Value.vDatetime y mo d h mi s)) = true ∧
      containsSpace (strftimeCanonical (Value.vDatetime y mo d h mi s)) = true) ∧
    (∀ y mo d : Nat,
      is_datetime_string (strftimeCanonical (Value.vDate y mo d)) = true ∧
      containsSpace (strftimeCanonical (Value.vDate y mo d)) = true) ∧
    (∀ (reg : Registry) (name c a : String) (rows : List (String × Value)),
      getConnection reg name = some c → getAdapter reg name = some a →
      selectDataResult reg name (ExecOutcome.ok rows) = some (processRow rows)) := by
  refine ⟨by simp [processRow], ?_, ?_, ?_, ?_, ?_, ?_, ?_⟩
  · intro i
    simp [processRow]
  · intro p hp
    rw [processRow] at hp
    rcases List.mem_map.mp hp with ⟨q, hq, rfl⟩
    cases hv : q.2 <;> simp [processValue, hasStrftime, hv]
  · intro v h
    simp [processValue, h]
  · intro v h
    simp [processValue, h]
  · intro y mo d h mi s
    have hl : (strftimeCanonical (Value.vDatetime y mo d h mi s)).data =
        [Nat.digitChar (y / 1000 % 10), Nat.digitChar (y / 100 % 10),
         Nat.digitChar (y / 10 % 10), Nat.digitChar (y % 10), '-',
         Nat.digitChar (mo / 10 % 10), Nat.digitChar (mo % 10), '-',
         Nat.digitChar (d / 10 % 10), Nat.digitChar (d % 10), ' ',
         Nat.digitChar (h / 10 % 10), Nat.digitChar (h % 10), ':',
         Nat.digitChar (mi / 10 % 10), Nat.digitChar (mi % 10), ':',
         Nat.digitChar (s / 10 % 10), Nat.digitChar (s % 10)] := rfl
    constructor
    · simp [is_datetime_string, hl, digitChar_mod_isDigit]
    · simp [containsSpace, hl]
  · intro y mo d
    have hl : (strftimeCanonical (Value.vDate y mo d)).data =
        [Nat.digitChar (y / 1000 % 10), Nat.digitChar (y / 100 % 10),
         Nat.digitChar (y / 10 % 10), Nat.digitChar (y % 10), '-',
         Nat.digitChar (mo / 10 % 10), Nat.digitChar (mo % 10), '-',
         Nat.digitChar (d / 10 % 10), Nat.digitChar (d % 10),
         ' ', '0', '0', ':', '0', '0', ':', '0', '0'] := rfl
    constructor
    · simp [is_datetime_string, hl, digitChar_mod_isDigit]
    · simp [containsSpace, hl]
  · intro reg name c a rows hc ha
    simp [selectDataResult, hc, ha]

/-- Witness for C7 at a concrete row: the integer passes through, the
datetime becomes its canonical string (matching the regex), and the
processed temporal entry no longer exposes `strftime`. -/
theorem select_rows_temporal_normalization_witness :
    processValue (Value.vInt 1) = Value.vInt 1 ∧
    processValue (Value.vDatetime 2024 1 15 10 30 0) =
      Value.vStr (strftimeCanonical (Value.vDatetime 2024 1 15 10 30 0)) ∧
    is_datetime_string (strftimeCanonical (Value.vDatetime 2024 1 15 10 30 0)) = true ∧
    hasStrftime ("created", Value.vStr "2024-01-15 10:30:00").2 = false := by
  have h := select_rows_temporal_normalization
    [("created", Value.vDatetime 2024 1 15 10 30 0), ("id", Value.vInt 1)]
  exact ⟨h.2.2.2.1 (Value.vInt 1) rfl, h.2.2.2.2.1 _ rfl,
    (h.2.2.2.2.2.1 2024 1 15 10 30 0).1,
    h.2.2.1 ("created", Value.vStr "2024-01-15 10:30:00") (by decide)⟩

end DBMCP
